import Mathlib

/-!
Shallow embedding of the model-conversion scripts and serving endpoints of
the repository (scripts/generate_llama_coreml.py, scripts/generate_tts_coreml.py,
scripts/generate_voice_model.py, PCPOScompanion/PythonScripts/tts_server.py,
PCPOScompanion/PythonScripts/granite_server.py).

External effects (HuggingFace model loads, torch.jit.trace, ct.convert,
mlmodel.save, filesystem checks, TTS/LLM inference) are opaque to the scripts:
each is modelled as an `Except String`-valued outcome supplied by an
environment record, and each script becomes a total function from its
environment to a trace recording the effects it performed (load attempts,
diagnostics printed, converter arguments, files saved) and how the run ended.
-/

/-- Whether the second character list occurs at the head of the first. -/
def listStartsWith : List Char → List Char → Bool
  | _, [] => true
  | [], _ :: _ => false
  | a :: as, b :: bs => a == b && listStartsWith as bs

/-- Whether the second character list occurs anywhere inside the first. -/
def listContainsSub : List Char → List Char → Bool
  | [], pat => pat.isEmpty
  | h :: t, pat => listStartsWith (h :: t) pat || listContainsSub t pat

/-- Substring containment on strings, modelling the Python `sub in s` test. -/
def containsSub (hay sub : String) : Bool :=
  listContainsSub hay.data sub.data

/-- Character-wise lowercasing, modelling Python `str.lower()` on the ASCII
identifiers the script compares against. -/
def lowerChars (cs : List Char) : List Char :=
  cs.map Char.toLower

/-- One axis of a declared tensor shape: a fixed size, or a
`ct.RangeDim(lo, hi)` flexible axis (bounds inclusive). -/
inductive ShapeDim where
  | fixed (n : Nat)
  | rangeDim (lo hi : Nat)
deriving DecidableEq, Repr

/-- Whether a concrete axis size conforms to a declared axis. -/
def ShapeDim.accepts : ShapeDim → Nat → Bool
  | .fixed n, m => m == n
  | .rangeDim lo hi, m => decide (lo ≤ m) && decide (m ≤ hi)

/-- A named input tensor declaration, as passed to `ct.convert`
(`ct.TensorType(name=..., shape=...)`). -/
structure TensorTy where
  name : String
  shape : List ShapeDim
deriving DecidableEq, Repr

/-- Whether a concrete shape conforms to a tensor declaration, axis by axis. -/
def TensorTy.accepts (t : TensorTy) (s : List Nat) : Bool :=
  t.shape.length == s.length && (List.zip t.shape s).all fun p => p.1.accepts p.2

/-- Whether the input named `nm` among the declared inputs accepts the
concrete shape `s`. -/
def tensorAccepts (ts : List TensorTy) (nm : String) (s : List Nat) : Bool :=
  match ts.find? (fun t => t.name == nm) with
  | some t => t.accepts s
  | none => false

/-- The argument bundle of one `ct.convert(...)` call: declared inputs,
declared output names, and the two optional package annotations. -/
structure ConvertArgs where
  inputs : List TensorTy
  outputs : List String
  compute_units : Option String
  minimum_deployment_target : Option String
deriving DecidableEq, Repr

/-- Pipeline stages of a conversion job (spec section 4.5). -/
inductive Stage where
  | resolving
  | wrapping
  | tracing
  | converting
  | saving
deriving DecidableEq, Repr

/-- How one run of a conversion function ended: a package was saved, the
function returned early after printing diagnostics, or an exception escaped. -/
inductive RunResult where
  | savedOk (path : String)
  | returnedEarly
  | raised (msg : String)
deriving DecidableEq, Repr

/-- Process exit of a script invocation. -/
inductive ProcOutcome where
  | exitSuccess
  | exitFailure
deriving DecidableEq, Repr

/-! ### generate_llama_coreml.py -/

/-- Primary model id of the Llama conversion script. -/
def llamaPrimaryId : String := "meta-llama/Llama-3.2-1B-Instruct"

/-- Fallback model id substituted on access denial. -/
def llamaFallbackId : String := "TinyLlama/TinyLlama-1.1B-Chat-v1.0"

/-- Output path of the Llama conversion script. -/
def llamaOutputPath : String := "Llama3_1B.mlpackage"

/-- The access-denial test of generate_llama_coreml.py line 16:
`"403" in str(e) or "gated" in str(e).lower()`. -/
def isAccessDenied (msg : String) : Bool :=
  containsSub msg "403" || listContainsSub (lowerChars msg.data) "gated".data

/-- Environment of one run of `convert_llama`: outcome of each external
effect, in program order. `primaryLoad` covers the tokenizer+model load of the
primary id, `fallbackLoad` the same for the fallback id. -/
structure LlamaEnv where
  primaryLoad : Except String Unit
  fallbackLoad : Except String Unit
  traceResult : Except String Unit
  convertResult : Except String Unit
  saveResult : Except String Unit
deriving Repr

/-- Trace of one run of `convert_llama`: which model ids were attempted, which
model flowed through each downstream stage, the converter call made, files
saved, diagnostics printed, the first failing stage, and the final result. -/
structure LlamaTrace where
  loadAttempts : List String
  resolvedId : Option String
  wrappedId : Option String
  tracedId : Option String
  convertedArgs : Option ConvertArgs
  convertedId : Option String
  savedModelId : Option String
  savedFiles : List String
  diagnostics : List String
  failedStage : Option Stage
  result : RunResult
deriving Repr

/-- The `ct.convert` argument bundle of generate_llama_coreml.py lines 57-63. -/
def llamaConvertArgs : ConvertArgs :=
  { inputs := [{ name := "input_ids"
               , shape := [ShapeDim.fixed 1, ShapeDim.rangeDim 1 2048] }]
  , outputs := ["logits"]
  , compute_units := some "CPU_AND_NE"
  , minimum_deployment_target := some "iOS16" }

/-- Shape of the dummy tracing input `torch.randint(0, vocab, (1, 10))`. -/
def llamaDummyShape : List Nat := [1, 10]

/-- The wrap/trace/convert/save tail of `convert_llama` (lines 32-67), entered
once a model bound to id `mid` has been loaded. Tracing, converting and saving
are not guarded by any `try`, so a failure there escapes as an exception. -/
def llamaPipeline (env : LlamaEnv) (attempts : List String)
    (diags : List String) (mid : String) : LlamaTrace :=
  match env.traceResult with
  | .error m =>
    { loadAttempts := attempts, resolvedId := some mid, wrappedId := some mid
    , tracedId := some mid, convertedArgs := none, convertedId := none
    , savedModelId := none, savedFiles := []
    , diagnostics := diags ++ ["⚡️ Creating Traceable Wrapper...", "🎲 Tracing model..."]
    , failedStage := some .tracing, result := .raised m }
  | .ok _ =>
    match env.convertResult with
    | .error m =>
      { loadAttempts := attempts, resolvedId := some mid, wrappedId := some mid
      , tracedId := some mid, convertedArgs := some llamaConvertArgs
      , convertedId := none, savedModelId := none, savedFiles := []
      , diagnostics := diags ++ ["⚡️ Creating Traceable Wrapper...", "🎲 Tracing model...",
          "🔄 Converting to CoreML (Float16)..."]
      , failedStage := some .converting, result := .raised m }
    | .ok _ =>
      match env.saveResult with
      | .error m =>
        { loadAttempts := attempts, resolvedId := some mid, wrappedId := some mid
        , tracedId := some mid, convertedArgs := some llamaConvertArgs
        , convertedId := some mid, savedModelId := none, savedFiles := []
        , diagnostics := diags ++ ["⚡️ Creating Traceable Wrapper...", "🎲 Tracing model...",
            "🔄 Converting to CoreML (Float16)..."]
        , failedStage := some .saving, result := .raised m }
      | .ok _ =>
        { loadAttempts := attempts, resolvedId := some mid, wrappedId := some mid
        , tracedId := some mid, convertedArgs := some llamaConvertArgs
        , convertedId := some mid, savedModelId := some mid
        , savedFiles := [llamaOutputPath]
        , diagnostics := diags ++ ["⚡️ Creating Traceable Wrapper...", "🎲 Tracing model...",
            "🔄 Converting to CoreML (Float16)...",
            "✅ Saved Llama 3.2 1B to " ++ llamaOutputPath]
        , failedStage := none, result := .savedOk llamaOutputPath }

/-- Embedding of `convert_llama` (generate_llama_coreml.py lines 6-67):
load the primary model; on an access-denial failure substitute the fallback id
and retry once; on any other load failure return; then wrap, trace, convert
and save with the bound model. -/
def convert_llama (env : LlamaEnv) : LlamaTrace :=
  match env.primaryLoad with
  | .ok _ =>
    llamaPipeline env [llamaPrimaryId] ["🧠 Loading Llama 3.2 1B-Instruct..."] llamaPrimaryId
  | .error e =>
    let d0 := ["🧠 Loading Llama 3.2 1B-Instruct...",
               "❌ Error loading " ++ llamaPrimaryId ++ ": " ++ e]
    if isAccessDenied e then
      match env.fallbackLoad with
      | .ok _ =>
        llamaPipeline env [llamaPrimaryId, llamaFallbackId]
          (d0 ++ ["⚠️ ACCESS DENIED: You have not accepted the license for Llama 3.2 on Hugging Face.",
                  "🔄 Falling back to TinyLlama-1.1B-Chat so you have a working brain...",
                  "✅ Successfully loaded fallback model: " ++ llamaFallbackId])
          llamaFallbackId
      | .error fe =>
        { loadAttempts := [llamaPrimaryId, llamaFallbackId], resolvedId := none
        , wrappedId := none, tracedId := none, convertedArgs := none
        , convertedId := none, savedModelId := none, savedFiles := []
        , diagnostics := d0 ++
            ["⚠️ ACCESS DENIED: You have not accepted the license for Llama 3.2 on Hugging Face.",
             "🔄 Falling back to TinyLlama-1.1B-Chat so you have a working brain...",
             "❌ Fallback failed too: " ++ fe]
        , failedStage := some .resolving, result := .returnedEarly }
    else
      { loadAttempts := [llamaPrimaryId], resolvedId := none, wrappedId := none
      , tracedId := none, convertedArgs := none, convertedId := none
      , savedModelId := none, savedFiles := [], diagnostics := d0
      , failedStage := some .resolving, result := .returnedEarly }

/-- The `__main__` guard of generate_llama_coreml.py: `convert_llama()` is
called bare, so an escaping exception makes the interpreter exit non-zero,
while a plain return exits zero. -/
def llamaMain (env : LlamaEnv) : ProcOutcome :=
  match (convert_llama env).result with
  | .raised _ => .exitFailure
  | _ => .exitSuccess

/-! ### generate_tts_coreml.py -/

/-- Output path of the TTS conversion script. -/
def ttsOutputPath : String := "SpeechT5_Acoustic.mlpackage"

/-- The `ct.convert` argument bundle of generate_tts_coreml.py lines 61-68:
note that neither `compute_units` nor `minimum_deployment_target` is passed. -/
def ttsConvertArgs : ConvertArgs :=
  { inputs := [{ name := "input_ids"
               , shape := [ShapeDim.fixed 1, ShapeDim.rangeDim 1 512] },
               { name := "speaker_embeddings"
               , shape := [ShapeDim.fixed 1, ShapeDim.fixed 512] }]
  , outputs := ["spectrogram"]
  , compute_units := none
  , minimum_deployment_target := none }

/-- Which wrapper class a TTS run hands to the tracer. -/
inductive TtsWrapperChoice where
  | acoustic
  | transformer
deriving DecidableEq, Repr

/-- Environment of one run of `convert_tts`: outcome of the combined
processor/model/vocoder load, then of tracing, converting and saving. -/
structure TtsEnv where
  load : Except String Unit
  traceResult : Except String Unit
  convertResult : Except String Unit
  saveResult : Except String Unit
deriving Repr

/-- Trace of one run of `convert_tts`. -/
structure TtsTrace where
  tracedWrapper : Option TtsWrapperChoice
  convertedArgs : Option ConvertArgs
  savedFiles : List String
  diagnostics : List String
  failedStage : Option Stage
  result : RunResult
deriving Repr

/-- Embedding of `convert_tts` (generate_tts_coreml.py lines 6-76): the load
is guarded by its own try/except (return on failure); trace, convert and save
sit inside one try whose except prints a warning and falls through to a normal
return, so no failure in them escapes the function. The wrapper instantiated
and traced is `TransformerWrapper` (line 49); `AcousticWrapper` is only
defined, never traced. -/
def convert_tts (env : TtsEnv) : TtsTrace :=
  match env.load with
  | .error e =>
    { tracedWrapper := none, convertedArgs := none, savedFiles := []
    , diagnostics := ["🗣️ Loading SpeechT5 TTS...", "❌ Error loading model: " ++ e]
    , failedStage := some .resolving, result := .returnedEarly }
  | .ok _ =>
    let d0 := ["🗣️ Loading SpeechT5 TTS...", "⚡️ Creating Traceable Wrapper...",
               "🎲 Tracing model..."]
    match env.traceResult with
    | .error e =>
      { tracedWrapper := some .transformer, convertedArgs := none, savedFiles := []
      , diagnostics := d0 ++
          ["⚠️ Tracing failed (common for complex TTS): " ++ e,
           "Falling back to simulated success for now so you can proceed with integration."]
      , failedStage := some .tracing, result := .returnedEarly }
    | .ok _ =>
      match env.convertResult with
      | .error e =>
        { tracedWrapper := some .transformer, convertedArgs := some ttsConvertArgs
        , savedFiles := []
        , diagnostics := d0 ++ ["🔄 Converting to CoreML...",
            "⚠️ Tracing failed (common for complex TTS): " ++ e,
            "Falling back to simulated success for now so you can proceed with integration."]
        , failedStage := some .converting, result := .returnedEarly }
      | .ok _ =>
        match env.saveResult with
        | .error e =>
          { tracedWrapper := some .transformer, convertedArgs := some ttsConvertArgs
          , savedFiles := []
          , diagnostics := d0 ++ ["🔄 Converting to CoreML...",
              "⚠️ Tracing failed (common for complex TTS): " ++ e,
              "Falling back to simulated success for now so you can proceed with integration."]
          , failedStage := some .saving, result := .returnedEarly }
        | .ok _ =>
          { tracedWrapper := some .transformer, convertedArgs := some ttsConvertArgs
          , savedFiles := [ttsOutputPath]
          , diagnostics := d0 ++ ["🔄 Converting to CoreML...",
              "✅ Saved SpeechT5_Acoustic.mlpackage"]
          , failedStage := none, result := .savedOk ttsOutputPath }

/-- The `__main__` guard of generate_tts_coreml.py: `convert_tts()` is called
bare, but the function never lets an exception escape, so the process exits
zero unless the impossible `raised` case occurred. -/
def ttsMain (env : TtsEnv) : ProcOutcome :=
  match (convert_tts env).result with
  | .raised _ => .exitFailure
  | _ => .exitSuccess

/-! ### generate_voice_model.py -/

/-- Output path of the speaker-encoder conversion script. -/
def voiceOutputPath : String := "SpeakerEncoder.mlpackage"

/-- The `ct.convert` argument bundle of generate_voice_model.py lines 41-45:
again neither `compute_units` nor `minimum_deployment_target` is passed. -/
def voiceConvertArgs : ConvertArgs :=
  { inputs := [{ name := "audio"
               , shape := [ShapeDim.fixed 1, ShapeDim.fixed 16000] }]
  , outputs := ["embedding"]
  , compute_units := none
  , minimum_deployment_target := none }

/-- Environment of one run of `generate_speaker_encoder`. -/
structure VoiceEnv where
  load : Except String Unit
  traceResult : Except String Unit
  convertResult : Except String Unit
  saveResult : Except String Unit
deriving Repr

/-- Trace of one run of `generate_speaker_encoder`. -/
structure VoiceTrace where
  convertedArgs : Option ConvertArgs
  savedFiles : List String
  diagnostics : List String
  failedStage : Option Stage
  result : RunResult
deriving Repr

/-- Embedding of `generate_speaker_encoder` (generate_voice_model.py lines
6-50): no internal try/except, so any failing effect escapes as an
exception. -/
def generate_speaker_encoder (env : VoiceEnv) : VoiceTrace :=
  match env.load with
  | .error e =>
    { convertedArgs := none, savedFiles := []
    , diagnostics := ["🚀 Starting Speaker Encoder Generation...",
                      "📥 Downloading Wav2Vec2 base model..."]
    , failedStage := some .resolving, result := .raised e }
  | .ok _ =>
    let d0 := ["🚀 Starting Speaker Encoder Generation...",
               "📥 Downloading Wav2Vec2 base model...",
               "⚡️ Tracing model with dummy input..."]
    match env.traceResult with
    | .error e =>
      { convertedArgs := none, savedFiles := [], diagnostics := d0
      , failedStage := some .tracing, result := .raised e }
    | .ok _ =>
      match env.convertResult with
      | .error e =>
        { convertedArgs := some voiceConvertArgs, savedFiles := []
        , diagnostics := d0 ++ ["🔄 Converting to CoreML format..."]
        , failedStage := some .converting, result := .raised e }
      | .ok _ =>
        match env.saveResult with
        | .error e =>
          { convertedArgs := some voiceConvertArgs, savedFiles := []
          , diagnostics := d0 ++ ["🔄 Converting to CoreML format..."]
          , failedStage := some .saving, result := .raised e }
        | .ok _ =>
          { convertedArgs := some voiceConvertArgs, savedFiles := [voiceOutputPath]
          , diagnostics := d0 ++ ["🔄 Converting to CoreML format...",
              "✅ Success! Saved to " ++ voiceOutputPath]
          , failedStage := none, result := .savedOk voiceOutputPath }

/-- The `__main__` guard of generate_voice_model.py lines 52-57: the call is
wrapped in try/except that prints the error and a tip, then falls off the end
of the script, so the interpreter exits zero in every case. -/
def voiceMain (env : VoiceEnv) : VoiceTrace × ProcOutcome :=
  let t := generate_speaker_encoder env
  match t.result with
  | .raised m =>
    ({ t with
       diagnostics := t.diagnostics ++ ["❌ Error: " ++ m,
         "Tip: Make sure you installed dependencies: pip install torch torchaudio coremltools"]
     , result := .returnedEarly }, .exitSuccess)
  | _ => (t, .exitSuccess)

/-! ### Traceable wrappers (what the tracer is handed) -/

/-- The distinct calls a wrapper can make into the underlying model. The
`generate` entries are the high-level loops with data-dependent iteration
counts; the `forward` entries are single non-autoregressive passes. -/
inductive ModelCall where
  | forwardCausalLM
  | generateCausalLM
  | forwardSpeechT5
  | generateSpeechT5
  | forwardWav2Vec2
deriving DecidableEq, Repr

/-- Whether a model call is a high-level generation loop. -/
def ModelCall.isGenerationLoop : ModelCall → Bool
  | .generateCausalLM => true
  | .generateSpeechT5 => true
  | _ => false

/-- Abstract causal-LM: a single forward pass from input ids to logits. -/
structure CausalLMModel (τ : Type) where
  forwardLogits : τ → τ

/-- Abstract SpeechT5 model: the single forward pass returning a spectrogram,
and the looping `generate_speech` method. -/
structure SpeechT5Model (τ : Type) where
  spectrogramOf : τ → τ → τ
  speechOf : τ → τ → τ

/-- Abstract Wav2Vec2 model: its forward returns either a bare tensor or a
(features, lengths) tuple. -/
structure Wav2Vec2Model (τ : Type) where
  forwardOut : τ → τ ⊕ (τ × τ)

/-- `LlamaWrapper.forward` (generate_llama_coreml.py lines 38-40):
`outputs = self.model(input_ids); return outputs.logits` — one forward call,
paired with the log of model calls it makes. -/
def LlamaWrapper.forward {τ : Type} (m : CausalLMModel τ) (input_ids : τ) :
    τ × List ModelCall :=
  (m.forwardLogits input_ids, [ModelCall.forwardCausalLM])

/-- `AcousticWrapper.forward` (generate_tts_coreml.py lines 32-34): delegates
to `self.model.generate_speech(...)` — the high-level generation loop. This
class is defined in the script but never handed to the tracer. -/
def AcousticWrapper.forward {τ : Type} (m : SpeechT5Model τ) (ids spk : τ) :
    τ × List ModelCall :=
  (m.speechOf ids spk, [ModelCall.generateSpeechT5])

/-- `TransformerWrapper.forward` (generate_tts_coreml.py lines 45-47):
`output = self.model(input_ids=..., speaker_embeddings=...); return
output.spectrogram` — one forward call. -/
def TransformerWrapper.forward {τ : Type} (m : SpeechT5Model τ) (ids spk : τ) :
    τ × List ModelCall :=
  (m.spectrogramOf ids spk, [ModelCall.forwardSpeechT5])

/-- `ModelWrapper.forward` (generate_voice_model.py lines 21-29): one forward
call; if the result is a tuple, return its first component. -/
def ModelWrapper.forward {τ : Type} (m : Wav2Vec2Model τ) (x : τ) :
    τ × List ModelCall :=
  (match m.forwardOut x with
   | Sum.inl out => out
   | Sum.inr pair => pair.1, [ModelCall.forwardWav2Vec2])

/-- The wrapper the TTS script actually instantiates and traces (line 49:
`wrapper = TransformerWrapper(model)`). -/
def ttsTracedWrapper : TtsWrapperChoice := .transformer

/-- Forward of the wrapper the TTS script passes to `torch.jit.trace`. -/
def ttsTracedForward {τ : Type} (m : SpeechT5Model τ) (ids spk : τ) :
    τ × List ModelCall :=
  match ttsTracedWrapper with
  | .acoustic => AcousticWrapper.forward m ids spk
  | .transformer => TransformerWrapper.forward m ids spk

/-! ### tts_server.py -/

/-- Default speaker reference path (tts_server.py line 46). -/
def defaultSpeakerWav : String := "reference_audio/pcpos_ref.wav"

/-- Default language (tts_server.py line 47). -/
def defaultLanguage : String := "en"

/-- State of the speech service at request time: whether the global model is
loaded, which paths exist on disk, the outcome of temp-file creation, and the
outcome of `tts.tts_to_file`. -/
structure TtsServerState where
  modelLoaded : Bool
  existingPaths : List String
  tempFile : Except String String
  synthesis : Except String Unit

/-- A parsed /tts request body. -/
structure TtsRequest where
  text : Option String
  speaker_wav : Option String
  language : Option String

/-- Body of a /tts response: a JSON error object or a wav file. -/
inductive HttpBody where
  | errorJson (msg : String)
  | audio (path : String)
deriving DecidableEq, Repr

/-- Whether a body is a JSON error object. -/
def HttpBody.isErrorJson : HttpBody → Bool
  | .errorJson _ => true
  | .audio _ => false

/-- Result of one /tts request: response body and status, whether the TTS
model was invoked, and the speaker/language values bound at lines 46-47 (none
when the handler returned before reaching them). -/
structure TtsServerResult where
  body : HttpBody
  status : Nat
  modelInvoked : Bool
  resolvedSpeaker : Option String
  resolvedLanguage : Option String
deriving DecidableEq, Repr

/-- Python truthiness of the `text` field: `if not text` fires when the field
is absent or the empty string. -/
def textFalsy : Option String → Bool
  | none => true
  | some s => s.isEmpty

/-- Embedding of `generate_speech` (tts_server.py lines 39-74): model-loaded
check, default substitution for `speaker_wav` and `language`, text check,
temp-file creation, speaker-path existence check, then inference; every
failure returns an error JSON with a non-2xx status. -/
def generate_speech (st : TtsServerState) (req : TtsRequest) : TtsServerResult :=
  if !st.modelLoaded then
    { body := .errorJson "Model not loaded", status := 503, modelInvoked := false
    , resolvedSpeaker := none, resolvedLanguage := none }
  else
    let speaker := req.speaker_wav.getD defaultSpeakerWav
    let lang := req.language.getD defaultLanguage
    if textFalsy req.text then
      { body := .errorJson "Missing \x27text\x27 parameter", status := 400
      , modelInvoked := false
      , resolvedSpeaker := some speaker, resolvedLanguage := some lang }
    else
      match st.tempFile with
      | .error e =>
        { body := .errorJson e, status := 500, modelInvoked := false
        , resolvedSpeaker := some speaker, resolvedLanguage := some lang }
      | .ok outPath =>
        if !(st.existingPaths.contains speaker) then
          { body := .errorJson ("Speaker reference file not found: " ++ speaker)
          , status := 400, modelInvoked := false
          , resolvedSpeaker := some speaker, resolvedLanguage := some lang }
        else
          match st.synthesis with
          | .error e =>
            { body := .errorJson e, status := 500, modelInvoked := true
            , resolvedSpeaker := some speaker, resolvedLanguage := some lang }
          | .ok _ =>
            { body := .audio outPath, status := 200, modelInvoked := true
            , resolvedSpeaker := some speaker, resolvedLanguage := some lang }

/-! ### granite_server.py -/

/-- Default system prompt (granite_server.py line 90). -/
def defaultSystemPrompt : String := "You are PCPOS, a helpful AI companion."

/-- The Granite prompt framing of granite_server.py line 94. -/
def buildFullPrompt (sys_prompt user : String) : String :=
  "### System:\n" ++ sys_prompt ++ "\n\n### User:\n" ++ user ++ "\n\n### Assistant:\n"

/-- State of the generation service at request time. `tokenCount s` is the
token length of `tokenizer(s)` (`input_ids.shape[1]`); `genNewTokens` is the
number of tokens `model.generate` appends after the prompt, so the total
output length is the input length plus it; `decodeFull` is the decoded full
output string; `genRaises` is a generation-time exception, if any. -/
structure GraniteState where
  modelLoaded : Bool
  tokenCount : String → Nat
  genNewTokens : Nat
  decodeFull : String
  genRaises : Option String

/-- A parsed /generate request body (temperature and sampling knobs are
omitted: generation itself is opaque in this model). -/
structure GenerateRequest where
  prompt : Option String
  system_prompt : Option String
  max_tokens : Option Nat

/-- Result of one /generate request. -/
structure GenerateResult where
  status : Nat
  response : Option String
  prompt_tokens : Option Nat
  completion_tokens : Option Nat
  errorMsg : Option String

/-- Embedding of `generate` (granite_server.py lines 61-135): model-loaded
check; defaults for prompt and system prompt; build the framed prompt;
tokenize it (`input_length`); generate (total output length = input length
plus new tokens); strip the prompt prefix from the decoded output; report
`prompt_tokens = input_length` and `completion_tokens = output_length -
input_length`. -/
def generate (st : GraniteState) (req : GenerateRequest) : GenerateResult :=
  if !st.modelLoaded then
    { status := 503, response := none, prompt_tokens := none
    , completion_tokens := none, errorMsg := some "Model not loaded" }
  else
    let user := req.prompt.getD ""
    let sys_prompt := req.system_prompt.getD defaultSystemPrompt
    let full := buildFullPrompt sys_prompt user
    let input_length := st.tokenCount full
    match st.genRaises with
    | some e =>
      { status := 500, response := none, prompt_tokens := none
      , completion_tokens := none, errorMsg := some e }
    | none =>
      let output_length := input_length + st.genNewTokens
      { status := 200
      , response := some ((st.decodeFull.drop full.length).trim)
      , prompt_tokens := some input_length
      , completion_tokens := some (output_length - input_length)
      , errorMsg := none }

/-! ### Concrete environments used to exercise the theorems -/

/-- A Llama run in which every external effect succeeds. -/
def llamaAllOkEnv : LlamaEnv :=
  { primaryLoad := .ok (), fallbackLoad := .ok ()
  , traceResult := .ok (), convertResult := .ok (), saveResult := .ok () }

/-- A Llama run whose primary load fails with an HTTP 403 access-denial
message and whose fallback load (and the rest) succeeds. -/
def llamaDeniedEnv : LlamaEnv :=
  { primaryLoad := .error "403 Client Error: model is gated"
  , fallbackLoad := .ok ()
  , traceResult := .ok (), convertResult := .ok (), saveResult := .ok () }

/-- A Llama run whose primary load fails with an unrelated error. -/
def llamaDiskFailEnv : LlamaEnv :=
  { primaryLoad := .error "no space left on device"
  , fallbackLoad := .ok ()
  , traceResult := .ok (), convertResult := .ok (), saveResult := .ok () }

/-- A TTS run in which every external effect succeeds. -/
def ttsAllOkEnv : TtsEnv :=
  { load := .ok (), traceResult := .ok ()
  , convertResult := .ok (), saveResult := .ok () }

/-- A TTS run whose load succeeds but whose `torch.jit.trace` call raises
(data-dependent control flow in the wrapped model). -/
def ttsTraceFailEnv : TtsEnv :=
  { load := .ok ()
  , traceResult := .error "Could not trace data-dependent control flow"
  , convertResult := .ok (), saveResult := .ok () }

/-- A speech-service state with the model loaded, only the default reference
path on disk, and all effects succeeding. -/
def ttsStateLoaded : TtsServerState :=
  { modelLoaded := true
  , existingPaths := [defaultSpeakerWav]
  , tempFile := .ok "/tmp/out.wav"
  , synthesis := .ok () }

/-- A /tts request giving a speaker path that is not on disk. -/
def ttsReqMissingSpeaker : TtsRequest :=
  { text := some "hello", speaker_wav := some "missing/voice.wav", language := none }

/-- A /tts request omitting both optional fields. -/
def ttsReqDefaults : TtsRequest :=
  { text := some "hello", speaker_wav := none, language := none }

/-- A generation-service state with the model loaded, character-count
tokenization, and a successful five-token generation. -/
def graniteStateOk : GraniteState :=
  { modelLoaded := true
  , tokenCount := fun s => s.length
  , genNewTokens := 5
  , decodeFull := ""
  , genRaises := none }

/-- A /generate request with a concrete prompt and no overrides. -/
def graniteReq : GenerateRequest :=
  { prompt := some "hi", system_prompt := none, max_tokens := some 100 }

/-- A speaker-encoder run in which every external effect succeeds. -/
def voiceAllOkEnv : VoiceEnv :=
  { load := .ok (), traceResult := .ok ()
  , convertResult := .ok (), saveResult := .ok () }

/-- A speaker-encoder run whose model download fails. -/
def voiceLoadFailEnv : VoiceEnv :=
  { load := .error "download failed", traceResult := .ok ()
  , convertResult := .ok (), saveResult := .ok () }

/-! ### Claims -/

/-- C1: in `convert_llama`, an access-denial failure of the primary load
triggers exactly one fallback attempt (the attempt list is exactly primary
then fallback, and never longer than two), every downstream stage uses the
fallback model, and a non-access load failure triggers no retry. -/
theorem c1_access_fallback_once (env : LlamaEnv) :
    (convert_llama env).loadAttempts.length ≤ 2 ∧
    (∀ e, env.primaryLoad = Except.error e →
      (isAccessDenied e = true →
        (convert_llama env).loadAttempts = [llamaPrimaryId, llamaFallbackId] ∧
        (env.fallbackLoad = Except.ok () →
          (convert_llama env).resolvedId = some llamaFallbackId ∧
          (convert_llama env).wrappedId = some llamaFallbackId ∧
          (convert_llama env).tracedId = some llamaFallbackId ∧
          ((convert_llama env).result = RunResult.savedOk llamaOutputPath →
            (convert_llama env).convertedId = some llamaFallbackId ∧
            (convert_llama env).savedModelId = some llamaFallbackId))) ∧
      (isAccessDenied e = false →
        (convert_llama env).loadAttempts = [llamaPrimaryId] ∧
        (convert_llama env).result = RunResult.returnedEarly ∧
        (convert_llama env).savedFiles = [])) := by
  obtain ⟨p, f, t, c, s⟩ := env
  constructor
  · cases p with
    | ok u => cases t <;> cases c <;> cases s <;> simp [convert_llama, llamaPipeline]
    | error e0 =>
      cases hd : isAccessDenied e0 <;> cases f <;> cases t <;> cases c <;> cases s <;>
        simp [convert_llama, llamaPipeline, hd]
  · intro e he
    cases p with
    | ok u => exact absurd he (by simp)
    | error e0 =>
      injection he with he0
      subst he0
      constructor
      · intro hacc
        cases f with
        | ok u =>
          cases t <;> cases c <;> cases s <;>
            simp [convert_llama, llamaPipeline, hacc]
        | error fe =>
          simp [convert_llama, hacc]
      · intro hnacc
        simp [convert_llama, hnacc]

/-- Witness for C1: the concrete denied-then-fallback run makes exactly the
two load attempts and every downstream stage carries the fallback model. -/
theorem c1_access_fallback_once_witness :
    (convert_llama llamaDeniedEnv).loadAttempts = [llamaPrimaryId, llamaFallbackId] ∧
    (convert_llama llamaDeniedEnv).tracedId = some llamaFallbackId ∧
    (convert_llama llamaDeniedEnv).savedModelId = some llamaFallbackId := by
  have h := c1_access_fallback_once llamaDeniedEnv
  have h2 := h.2 "403 Client Error: model is gated" rfl
  have h3 := h2.1 (by decide)
  exact ⟨h3.1, (h3.2 rfl).2.2.1, ((h3.2 rfl).2.2.2 rfl).2⟩

/-- C2: whenever `convert_tts` reaches tracing and the trace fails, the
failure is reported by a diagnostic and the function returns normally — the
result is never an escaped exception, and the process exits zero. -/
theorem c2_trace_error_recoverable (env : TtsEnv) (e : String)
    (hl : env.load = Except.ok ()) (ht : env.traceResult = Except.error e) :
    (convert_tts env).result = RunResult.returnedEarly ∧
    ("⚠️ Tracing failed (common for complex TTS): " ++ e) ∈ (convert_tts env).diagnostics ∧
    (convert_tts env).diagnostics ≠ [] ∧
    (∀ m, (convert_tts env).result ≠ RunResult.raised m) ∧
    ttsMain env = ProcOutcome.exitSuccess := by
  obtain ⟨l, t, c, s⟩ := env
  simp only at hl ht
  subst hl ht
  simp [convert_tts, ttsMain]

/-- Witness for C2: the concrete trace-failure run returns normally and the
process exits zero. -/
theorem c2_trace_error_recoverable_witness :
    (convert_tts ttsTraceFailEnv).result = RunResult.returnedEarly ∧
    ttsMain ttsTraceFailEnv = ProcOutcome.exitSuccess := by
  have h := c2_trace_error_recoverable ttsTraceFailEnv
    "Could not trace data-dependent control flow" rfl rfl
  exact ⟨h.1, h.2.2.2.2⟩

/-- C3: a `convert_llama` run that reaches conversion passes the dummy input
of sequence length 10, declares the single output "logits", and declares an
"input_ids" spec that accepts shape (1, n) exactly when 1 ≤ n ≤ 2048. -/
theorem c3_ranged_input_spec (env : LlamaEnv)
    (hp : env.primaryLoad = Except.ok ())
    (ht : env.traceResult = Except.ok ())
    (hc : env.convertResult = Except.ok ()) :
    (convert_llama env).convertedArgs = some llamaConvertArgs ∧
    llamaDummyShape = [1, 10] ∧
    tensorAccepts llamaConvertArgs.inputs "input_ids" llamaDummyShape = true ∧
    llamaConvertArgs.outputs = ["logits"] ∧
    llamaConvertArgs.outputs.length = 1 ∧
    (∀ n, 1 ≤ n → n ≤ 2048 →
      tensorAccepts llamaConvertArgs.inputs "input_ids" [1, n] = true) ∧
    (∀ n, tensorAccepts llamaConvertArgs.inputs "input_ids" [1, n] = true →
      1 ≤ n ∧ n ≤ 2048) := by
  obtain ⟨p, f, t, c, s⟩ := env
  simp only at hp ht hc
  subst hp ht hc
  refine ⟨?_, rfl, by decide, rfl, rfl, ?_, ?_⟩
  · cases s <;> simp [convert_llama, llamaPipeline]
  · intro n h1 h2
    simp [tensorAccepts, llamaConvertArgs, TensorTy.accepts, ShapeDim.accepts,
      List.find?, h1, h2]
  · intro n h
    simp [tensorAccepts, llamaConvertArgs, TensorTy.accepts, ShapeDim.accepts,
      List.find?] at h
    exact h

/-- Witness for C3: the all-success run records the ranged converter call and
the boundary length 2048 is accepted. -/
theorem c3_ranged_input_spec_witness :
    (convert_llama llamaAllOkEnv).convertedArgs = some llamaConvertArgs ∧
    tensorAccepts llamaConvertArgs.inputs "input_ids" [1, 2048] = true := by
  have h := c3_ranged_input_spec llamaAllOkEnv rfl rfl rfl
  exact ⟨h.1, h.2.2.2.2.2.1 2048 (by decide) (by decide)⟩

/-- C4: in both conversion jobs, a run that ends in the saved state has
exactly the one declared output path in its saved-file list, and a run that
fails while resolving, wrapping, tracing or converting saves nothing. -/
theorem c4_package_iff_success (envL : LlamaEnv) (envT : TtsEnv) :
    ((∀ p, (convert_llama envL).result = RunResult.savedOk p →
        (convert_llama envL).savedFiles = [llamaOutputPath] ∧ p = llamaOutputPath) ∧
     (∀ st, (convert_llama envL).failedStage = some st → st ≠ Stage.saving →
        (convert_llama envL).savedFiles = [])) ∧
    ((∀ p, (convert_tts envT).result = RunResult.savedOk p →
        (convert_tts envT).savedFiles = [ttsOutputPath] ∧ p = ttsOutputPath) ∧
     (∀ st, (convert_tts envT).failedStage = some st → st ≠ Stage.saving →
        (convert_tts envT).savedFiles = [])) := by
  constructor
  · obtain ⟨p, f, t, c, s⟩ := envL
    cases p with
    | ok u => cases t <;> cases c <;> cases s <;> simp [convert_llama, llamaPipeline]
    | error e0 =>
      cases hd : isAccessDenied e0 <;> cases f <;> cases t <;> cases c <;> cases s <;>
        simp [convert_llama, llamaPipeline, hd]
  · obtain ⟨l, t, c, s⟩ := envT
    cases l <;> cases t <;> cases c <;> cases s <;> simp [convert_tts]

/-- Witness for C4: the all-success Llama run saves exactly its declared
package, and the trace-failing TTS run saves nothing. -/
theorem c4_package_iff_success_witness :
    (convert_llama llamaAllOkEnv).savedFiles = [llamaOutputPath] ∧
    (convert_tts ttsTraceFailEnv).savedFiles = [] := by
  have h := c4_package_iff_success llamaAllOkEnv ttsTraceFailEnv
  exact ⟨(h.1.1 llamaOutputPath rfl).1, h.2.2 Stage.tracing rfl (by decide)⟩

/-- C5: a /tts request hitting a missing model, a missing text field, or a
non-existent (given or defaulted) speaker reference gets a JSON error body
with a non-200 status, and with a non-existent speaker reference the TTS
model is never invoked. -/
theorem c5_tts_error_paths (st : TtsServerState) (req : TtsRequest)
    (h : st.modelLoaded = false ∨ req.text = none ∨
         st.existingPaths.contains (req.speaker_wav.getD defaultSpeakerWav) = false) :
    ((generate_speech st req).body.isErrorJson = true ∧
     (generate_speech st req).status ≠ 200) ∧
    (st.existingPaths.contains (req.speaker_wav.getD defaultSpeakerWav) = false →
      (generate_speech st req).modelInvoked = false) := by
  by_cases hml : st.modelLoaded = false
  · simp [generate_speech, hml, HttpBody.isErrorJson]
  · have hml2 : st.modelLoaded = true := by
      cases hq : st.modelLoaded
      · exact absurd hq hml
      · rfl
    by_cases htf : textFalsy req.text = true
    · simp [generate_speech, hml2, htf, HttpBody.isErrorJson]
    · have htf2 : textFalsy req.text = false := by
        cases hq : textFalsy req.text
        · rfl
        · exact absurd hq htf
      have hne : req.text ≠ none := by
        intro hn
        rw [hn] at htf2
        exact absurd htf2 (by simp [textFalsy])
      have hmiss : st.existingPaths.contains (req.speaker_wav.getD defaultSpeakerWav) = false := by
        rcases h with h | h | h
        · exact absurd h (by simp [hml2])
        · exact absurd h hne
        · exact h
      have hmiss2 : req.speaker_wav.getD defaultSpeakerWav ∉ st.existingPaths := by
        simpa using hmiss
      cases htmp : st.tempFile with
      | error e => simp [generate_speech, hml2, htf2, htmp, HttpBody.isErrorJson]
      | ok path => simp [generate_speech, hml2, htf2, htmp, hmiss2, HttpBody.isErrorJson]

/-- Witness for C5: a loaded service given a speaker path that is not on disk
answers with a JSON error and never invokes the model. -/
theorem c5_tts_error_paths_witness :
    (generate_speech ttsStateLoaded ttsReqMissingSpeaker).body.isErrorJson = true ∧
    (generate_speech ttsStateLoaded ttsReqMissingSpeaker).modelInvoked = false := by
  have h := c5_tts_error_paths ttsStateLoaded ttsReqMissingSpeaker
    (Or.inr (Or.inr (by decide)))
  exact ⟨h.1.1, h.2 (by decide)⟩

/-- C6: counter-evidence for the claimed failure contract of the entry
points. On the concrete trace-failure run, `convert_tts` prints diagnostics
and saves no package, yet its process exits zero (a success-equivalent
outcome), and the speaker-encoder script likewise exits zero when its model
download fails. -/
theorem c6_failed_runs_exit_zero :
    (convert_tts ttsTraceFailEnv).savedFiles = [] ∧
    (convert_tts ttsTraceFailEnv).diagnostics ≠ [] ∧
    ttsMain ttsTraceFailEnv = ProcOutcome.exitSuccess ∧
    (generate_speaker_encoder voiceLoadFailEnv).savedFiles = [] ∧
    (voiceMain voiceLoadFailEnv).2 = ProcOutcome.exitSuccess ∧
    (voiceMain voiceLoadFailEnv).1.diagnostics ≠ [] := by
  refine ⟨rfl, by decide, rfl, rfl, rfl, by decide⟩

/-- C7: the wrapper actually handed to the tracer in each conversion script
makes exactly one model call, that call is the single non-autoregressive
forward pass (next-token logits, single spectrogram, single feature pass),
and it is never a high-level generation loop. In the TTS script the traced
wrapper is `TransformerWrapper`, not the loop-invoking `AcousticWrapper`. -/
theorem c7_traced_wrappers_single_forward :
    ∀ (τ : Type) (mL : CausalLMModel τ) (ids : τ) (mT : SpeechT5Model τ)
      (tid spk : τ) (mV : Wav2Vec2Model τ) (x : τ),
      (LlamaWrapper.forward mL ids).2 = [ModelCall.forwardCausalLM] ∧
      (LlamaWrapper.forward mL ids).1 = mL.forwardLogits ids ∧
      (LlamaWrapper.forward mL ids).2.all (fun k => !k.isGenerationLoop) = true ∧
      ttsTracedWrapper = TtsWrapperChoice.transformer ∧
      (ttsTracedForward mT tid spk).2 = [ModelCall.forwardSpeechT5] ∧
      (ttsTracedForward mT tid spk).1 = mT.spectrogramOf tid spk ∧
      (ttsTracedForward mT tid spk).2.all (fun k => !k.isGenerationLoop) = true ∧
      (ModelWrapper.forward mV x).2 = [ModelCall.forwardWav2Vec2] ∧
      (ModelWrapper.forward mV x).2.all (fun k => !k.isGenerationLoop) = true ∧
      (LlamaWrapper.forward mL ids).2.length = 1 ∧
      (ttsTracedForward mT tid spk).2.length = 1 ∧
      (ModelWrapper.forward mV x).2.length = 1 := by
  intro τ mL ids mT tid spk mV x
  exact ⟨rfl, rfl, rfl, rfl, rfl, rfl, rfl, rfl, rfl, rfl, rfl, rfl⟩

/-- C8 counterexample: it is false that every conversion script's converter
call carries both a compute-affinity annotation and a minimum
deployment-target annotation — the TTS converter call carries neither. -/
theorem c8_counterexample_tts_unannotated :
    ¬ (∀ a ∈ [llamaConvertArgs, ttsConvertArgs, voiceConvertArgs],
        a.compute_units.isSome = true ∧ a.minimum_deployment_target.isSome = true) := by
  intro h
  have h2 := (h ttsConvertArgs (by simp)).1
  simp [ttsConvertArgs] at h2

/-- C8 amended: only the Llama script's converter call is annotated with a
compute affinity (CPU_AND_NE) and a minimum deployment target (iOS16); the
TTS and speaker-encoder scripts pass neither annotation, as their successful
runs record. -/
theorem c8_only_llama_annotated :
    (convert_llama llamaAllOkEnv).convertedArgs = some llamaConvertArgs ∧
    llamaConvertArgs.compute_units = some "CPU_AND_NE" ∧
    llamaConvertArgs.minimum_deployment_target = some "iOS16" ∧
    (convert_tts ttsAllOkEnv).convertedArgs = some ttsConvertArgs ∧
    ttsConvertArgs.compute_units = none ∧
    ttsConvertArgs.minimum_deployment_target = none ∧
    (generate_speaker_encoder voiceAllOkEnv).convertedArgs = some voiceConvertArgs ∧
    voiceConvertArgs.compute_units = none ∧
    voiceConvertArgs.minimum_deployment_target = none := by
  exact ⟨rfl, rfl, rfl, rfl, rfl, rfl, rfl, rfl, rfl⟩

/-- C9: when the service model is loaded and a /tts request omits the
optional fields, the handler binds the fixed defaults — speaker path
"reference_audio/pcpos_ref.wav" and language "en" — before the text check,
the existence check and inference, and in particular the model is only ever
invoked if the default speaker path exists on disk. -/
theorem c9_optional_field_defaults (st : TtsServerState) (req : TtsRequest)
    (hm : st.modelLoaded = true) (hs : req.speaker_wav = none)
    (hl : req.language = none) :
    (generate_speech st req).resolvedSpeaker = some "reference_audio/pcpos_ref.wav" ∧
    (generate_speech st req).resolvedLanguage = some "en" ∧
    ((generate_speech st req).modelInvoked = true →
      st.existingPaths.contains "reference_audio/pcpos_ref.wav" = true) := by
  by_cases hc : ("reference_audio/pcpos_ref.wav" : String) ∈ st.existingPaths
  · cases htf : textFalsy req.text <;> cases htmp : st.tempFile <;>
      cases hsyn : st.synthesis <;>
      simp [generate_speech, hm, hs, hl, htf, htmp, hsyn, hc,
        defaultSpeakerWav, defaultLanguage]
  · cases htf : textFalsy req.text <;> cases htmp : st.tempFile <;>
      simp [generate_speech, hm, hs, hl, htf, htmp, hc,
        defaultSpeakerWav, defaultLanguage]

/-- Witness for C9: the loaded service given a request with no optional
fields resolves exactly the default speaker path and language. -/
theorem c9_optional_field_defaults_witness :
    (generate_speech ttsStateLoaded ttsReqDefaults).resolvedSpeaker =
      some "reference_audio/pcpos_ref.wav" ∧
    (generate_speech ttsStateLoaded ttsReqDefaults).resolvedLanguage = some "en" := by
  have h := c9_optional_field_defaults ttsStateLoaded ttsReqDefaults rfl rfl rfl
  exact ⟨h.1, h.2.1⟩

/-- C10: a successful /generate response reports `prompt_tokens` as the token
length of the full framed prompt (system prompt plus template markers plus
user prompt) and `completion_tokens` as the total generated length minus that
framed-prompt length. -/
theorem c10_token_accounting (st : GraniteState) (req : GenerateRequest)
    (hm : st.modelLoaded = true) (hg : st.genRaises = none) :
    (generate st req).status = 200 ∧
    (generate st req).prompt_tokens =
      some (st.tokenCount (buildFullPrompt (req.system_prompt.getD defaultSystemPrompt)
        (req.prompt.getD ""))) ∧
    (generate st req).completion_tokens = some st.genNewTokens ∧
    (∀ k, (generate st req).prompt_tokens = some k →
      (generate st req).completion_tokens = some (k + st.genNewTokens - k)) := by
  simp [generate, hm, hg]

/-- Witness for C10: on the concrete loaded service with character-count
tokenization, the reported prompt length is that of the framed prompt around
"hi" and the completion count is the five generated tokens. -/
theorem c10_token_accounting_witness :
    (generate graniteStateOk graniteReq).prompt_tokens =
      some (buildFullPrompt defaultSystemPrompt "hi").length ∧
    (generate graniteStateOk graniteReq).completion_tokens = some 5 := by
  have h := c10_token_accounting graniteStateOk graniteReq rfl rfl
  exact ⟨h.2.1, h.2.2.1⟩
